import Mathlib

/-!
Verification development for the GENX AI Studio Flask backend
(`Backend/app.py`).

Shallow embedding conventions:
* Python `float` values are modelled as `Rat` (every numeric literal in the
  source is a finite decimal, exactly representable); the textual rendering of
  a float inside an f-string is modelled by `pyFloatRepr`, which agrees with
  Python for integral values.  No claim depends on the exact rendering.
* Python strings are Lean `String`s; `str.lower`, `str.replace`, slicing and
  the `in` operator are modelled by the executable helpers `pyLower`,
  `pyReplace`, `strTake` and `pyContains` below.
* JSON request/response bodies are values of the inductive `Json`; a JSON
  object body is passed to a handler as an association list
  `List (String × Json)` (Python `dict` preserving insertion order).
* Environmental effects are passed as explicit arguments: the fresh
  `str(uuid.uuid4())` drawn by a call site becomes a `String` argument, and
  the `time.time()` difference becomes a `Rat` argument.
* `asyncio.sleep` calls only simulate latency and have no observable effect;
  they are not modelled.
-/

/-- JSON values, as parsed from a request body or returned via `jsonify`.
Objects are association lists preserving insertion order, numbers are exact
rationals. -/
inductive Json where
  | null
  | bool (b : Bool)
  | num (q : Rat)
  | str (s : String)
  | arr (elems : List Json)
  | obj (fields : List (String × Json))
deriving Repr, Inhabited

/-- Lookup of a key in a JSON object's field list (Python `dict` lookup:
first — and in a real dict only — binding wins). -/
def jlookup (data : List (String × Json)) (k : String) : Option Json :=
  (data.find? (fun p => p.1 == k)).map (fun p => p.2)

/-- `data[k]` for a key that is known to be present (`Json.null` as the
don't-care default; every use site has checked presence first). -/
def jget (data : List (String × Json)) (k : String) : Json :=
  (jlookup data k).getD Json.null

/-- Field access on a JSON object value. -/
def jfield : Json → String → Option Json
  | Json.obj fields, k => jlookup fields k
  | _, _ => none

/-- Models Python `str.lower()` (ASCII-faithful via `Char.toLower`; the
special multi-character Unicode lowerings of Python are not modelled — every
string the program compares is ASCII). -/
def pyLower (s : String) : String :=
  ⟨s.data.map Char.toLower⟩

/-- Boolean prefix test on character lists (executable, kernel-reducible). -/
def prefixChars : List Char → List Char → Bool
  | [], _ => true
  | _ :: _, [] => false
  | a :: as, b :: bs => a == b && prefixChars as bs

/-- Boolean contiguous-substring test on character lists. -/
def infixChars (needle : List Char) : List Char → Bool
  | [] => prefixChars needle []
  | c :: rest => prefixChars needle (c :: rest) || infixChars needle rest

/-- Models the Python expression `needle in hay` on strings. -/
def pyContains (hay needle : String) : Bool :=
  infixChars needle.data hay.data

/-- Fuel-indexed worker for `pyReplace`; fuel starts at the haystack length,
so the fuel-exhausted branch is never reached on the real call. -/
def replaceChars (pat rep : List Char) : Nat → List Char → List Char
  | _, [] => []
  | 0, s => s
  | fuel + 1, c :: rest =>
    if prefixChars pat (c :: rest) && !pat.isEmpty then
      rep ++ replaceChars pat rep fuel (List.drop (pat.length - 1) rest)
    else
      c :: replaceChars pat rep fuel rest

/-- Models Python `s.replace(pat, rep)`: replaces non-overlapping occurrences
left to right.  (Python's empty-pattern behaviour is not modelled; the only
pattern the program uses is a single space.) -/
def pyReplace (s pat rep : String) : String :=
  ⟨replaceChars pat.data rep.data s.data.length s.data⟩

/-- Models Python slicing `s[:n]`. -/
def strTake (s : String) (n : Nat) : String :=
  ⟨s.data.take n⟩

/-- Models Python `lst * n`: `n`-fold concatenation of the list. -/
def pyListMul (l : List α) (n : Nat) : List α :=
  (List.replicate n l).flatten

/-- Stand-in for Python's (process-salted) string hash used in
`seed={hash(req.scene_id) % 10000}`.  The actual Python value is
process-dependent; no claim depends on the value, only on it being a
deterministic function of the string. -/
def pyHash (s : String) : Nat :=
  s.data.foldl (fun h c => (h * 31 + c.toNat) % 18446744073709551616) 5381

/-- Models Python `str(q)` for the float that `q : Rat` stands for.  Agrees
with Python on integral values (`str(80.0) = "80.0"`); for non-integral
values the rendering is schematic — no claim inspects it. -/
def pyFloatRepr (q : Rat) : String :=
  if q.den == 1 then toString q.num ++ ".0"
  else toString q.num ++ "/" ++ toString q.den

/-- `GenerationRequest` dataclass (`app.py` lines 26–36).  `intensity` is a
Python float, modelled as `Rat`; `models` and `parameters` are stored exactly
as received, so they stay `Json`. -/
structure GenerationRequest where
  scene_id : String
  text_prompt : String
  emotion : String
  intensity : Rat
  style : String
  camera_angle : String
  models : Json
  parameters : Json

/-- The substring special-cased by `_enhance_text_prompt`. -/
def wheatNeedle : String := "wheat field"

/-- The space character replaced during URL construction. -/
def spaceStr : String := " "

/-- The URL escape that replaces a space. -/
def pct20 : String := "%20"

/-- The elaborate hand-authored template of `_enhance_text_prompt`
(`app.py` line 116), taken when the lower-cased prompt contains
`wheat field`. -/
def wheatTemplate (req : GenerationRequest) : String :=
  "Cinematic " ++ req.camera_angle ++ " shot of a young boy with " ++ req.emotion ++
  " expression, running through a golden wheat field at golden hour. Warm sunlight creates dramatic backlighting, wheat stalks swaying in gentle breeze. Dynamic movement with " ++
  req.style ++ " cinematography, " ++ pyFloatRepr (req.intensity * 100) ++
  "% emotional intensity. Professional color grading with warm amber tones."

/-- The generic cinematic template of `_enhance_text_prompt`
(`app.py` line 118). -/
def genericTemplate (req : GenerationRequest) : String :=
  "Professional " ++ req.style ++ " " ++ req.camera_angle ++ " shot featuring " ++
  req.text_prompt ++ ". Emotional tone: " ++ req.emotion ++ " at " ++
  pyFloatRepr (req.intensity * 100) ++
  "% intensity. Cinematic lighting and composition optimized for AI generation."

/-- `ModelFusionEngine._enhance_text_prompt` (`app.py` lines 92–120).  The
`enhancement_prompt` f-string built at the top of the Python function is dead
code (assigned, never used) and is not modelled; the `asyncio.sleep` is pure
latency. -/
def enhance_text_prompt (req : GenerationRequest) : String :=
  if pyContains (pyLower req.text_prompt) wheatNeedle then wheatTemplate req
  else genericTemplate req

/-- One image descriptor of `_generate_visuals`. -/
structure ImageOut where
  url : String
  style : String
  emotion_accuracy : Rat
  technical_quality : Rat
deriving Repr, DecidableEq

/-- One video descriptor of `_generate_visuals`. -/
structure VideoOut where
  url : String
  camera_work : String
  motion_quality : Rat
  emotional_sync : Rat
deriving Repr, DecidableEq

/-- Return shape of `_generate_visuals`. -/
structure VisualOutputs where
  images : List ImageOut
  videos : List VideoOut
deriving Repr, DecidableEq

/-- `ModelFusionEngine._generate_visuals` (`app.py` lines 122–145). -/
def generate_visuals (req : GenerationRequest) (enhanced_text : String) : VisualOutputs :=
  { images := [
      { url := "https://image.pollinations.ai/prompt/" ++ pyReplace enhanced_text spaceStr pct20 ++
          "?width=1920&height=1080&seed=" ++ toString (pyHash req.scene_id % 10000)
        style := req.style
        emotion_accuracy := 0.92
        technical_quality := 0.89 }]
    videos := [
      { url := "https://video.pollinations.ai/prompt/" ++ pyReplace enhanced_text spaceStr pct20 ++
          "?duration=10&fps=30"
        camera_work := req.camera_angle
        motion_quality := 0.87
        emotional_sync := 0.94 }] }

/-- Lip-sync payload of the voice descriptor. -/
structure LipsyncData where
  phonemes : List String
  timestamps : List Rat
  mouth_shapes : List String
deriving Repr, DecidableEq

/-- Voice descriptor of `_generate_audio`. -/
structure VoiceOut where
  url : String
  emotion_match : Rat
  naturalness : Rat
  lipsync_data : LipsyncData
deriving Repr, DecidableEq

/-- Music descriptor of `_generate_audio`. -/
structure MusicOut where
  url : String
  mood_alignment : Rat
  emotional_progression : Bool
  adaptive_sync : Bool
deriving Repr, DecidableEq

/-- Return shape of `_generate_audio`. -/
structure AudioOutputs where
  voice : VoiceOut
  music : MusicOut
deriving Repr, DecidableEq

/-- `ModelFusionEngine._generate_audio` (`app.py` lines 147–170). -/
def generate_audio (req : GenerationRequest) (enhanced_text : String) : AudioOutputs :=
  { voice := {
      url := "https://audio.pollinations.ai/speech/" ++ strTake enhanced_text 100 ++
        "?voice=child&emotion=" ++ req.emotion
      emotion_match := 0.91
      naturalness := 0.88
      lipsync_data := {
        phonemes := pyListMul ["A", "E", "I", "O", "U"] 10
        timestamps := (List.range 50).map (fun (i : Nat) => (i : Rat) * 0.1)
        mouth_shapes := pyListMul ["open", "smile", "narrow", "round", "pucker"] 10 } }
    music := {
      url := "https://audio.pollinations.ai/music/cinematic-" ++ req.emotion ++ "?tempo=120&key=C"
      mood_alignment := 0.93
      emotional_progression := true
      adaptive_sync := true } }

/-- `primary_content` bundle of `_fuse_modalities`. -/
structure PrimaryContent where
  video : String
  audio : String
  voice : String
deriving Repr, DecidableEq

/-- `synchronized_timeline` of `_fuse_modalities`. -/
structure SyncTimeline where
  total_duration : Rat
  emotion_peaks : List Rat
  camera_transitions : List Rat
  audio_sync_points : List Rat
deriving Repr, DecidableEq

/-- `fusion_metadata` of `_fuse_modalities`. -/
structure FusionMetadata where
  visual_audio_sync : Rat
  emotional_coherence : Rat
  technical_quality : Rat
  creative_score : Rat
deriving Repr, DecidableEq

/-- `render_ready` of `_fuse_modalities`. -/
structure RenderReady where
  flux_pipeline : Bool
  lipsync_enabled : Bool
  seedance_processing : Bool
  webgl_optimized : Bool
deriving Repr, DecidableEq

/-- Return shape of `_fuse_modalities`. -/
structure FusedOutput where
  primary_content : PrimaryContent
  synchronized_timeline : SyncTimeline
  fusion_metadata : FusionMetadata
  render_ready : RenderReady
deriving Repr, DecidableEq

/-- `ModelFusionEngine._fuse_modalities` (`app.py` lines 172–202).  The
Python body indexes `visual["videos"][0]`, which raises `IndexError` on an
empty list; that failure is the `none` branch.  `req` is accepted but never
read, exactly as in the source. -/
def fuse_modalities (visual : VisualOutputs) (audio : AudioOutputs)
    (_req : GenerationRequest) : Option FusedOutput :=
  match visual.videos with
  | [] => none
  | v0 :: _ =>
    some {
      primary_content := { video := v0.url, audio := audio.music.url, voice := audio.voice.url }
      synchronized_timeline := {
        total_duration := 10.0
        emotion_peaks := [2.5, 5.0, 8.5]
        camera_transitions := [0, 3.0, 6.0, 9.0]
        audio_sync_points := [0, 2.0, 4.0, 6.0, 8.0] }
      fusion_metadata := {
        visual_audio_sync := 0.96
        emotional_coherence := 0.94
        technical_quality := 0.91
        creative_score := 0.89 }
      render_ready := {
        flux_pipeline := true
        lipsync_enabled := true
        seedance_processing := true
        webgl_optimized := true } }

/-- The `emotion_context` entry of the result metadata. -/
structure EmotionContext where
  emotion : String
  intensity : Rat
deriving Repr, DecidableEq

/-- The `metadata` dict of a `GenerationResult` (`app.py` lines 81–86). -/
structure ResultMetadata where
  enhanced_prompt : String
  models_used : Json
  emotion_context : EmotionContext
  processing_stages : List String
deriving Repr

/-- `GenerationResult` dataclass (`app.py` lines 38–46). -/
structure GenerationResult where
  request_id : String
  scene_id : String
  status : String
  outputs : FusedOutput
  metadata : ResultMetadata
  processing_time : Rat
deriving Repr

/-- `ModelFusionEngine.process_multimodal_scene` (`app.py` lines 55–90).
`request_id` is the fresh `str(uuid.uuid4())` drawn by the call, and
`processing_time` the measured `time.time()` difference; both are
environmental inputs passed explicitly.  An exception from a stage would
propagate uncaught, hence the `Option` result (in fact the fusion stage
always receives a one-element video list and never fails). -/
def process_multimodal_scene (request_id : String) (processing_time : Rat)
    (req : GenerationRequest) : Option GenerationResult :=
  let enhanced_text := enhance_text_prompt req
  let visual_outputs := generate_visuals req enhanced_text
  let audio_outputs := generate_audio req enhanced_text
  match fuse_modalities visual_outputs audio_outputs req with
  | none => none
  | some fused_output =>
    some {
      request_id := request_id
      scene_id := req.scene_id
      status := "completed"
      outputs := fused_output
      metadata := {
        enhanced_prompt := enhanced_text
        models_used := req.models
        emotion_context := { emotion := req.emotion, intensity := req.intensity }
        processing_stages := ["text_enhancement", "visual_generation", "audio_generation", "fusion"] }
      processing_time := processing_time }

/-- Digit test for `parsePyFloat`. -/
def isDigitChar (c : Char) : Bool :=
  47 < c.toNat && c.toNat < 58

/-- Accumulating decimal value of a digit list. -/
def natOfDigits : List Char → Nat → Nat
  | [], acc => acc
  | c :: cs, acc => natOfDigits cs (acc * 10 + (c.toNat - 48))

/-- Unsigned part of a Python float literal: digits with an optional single
point, at least one digit in total (`"5"`, `"5."`, `".5"`). -/
def parseUnsigned (s : List Char) : Option Rat :=
  let intPart := s.takeWhile isDigitChar
  let rest := s.dropWhile isDigitChar
  match rest with
  | [] => if intPart.isEmpty then none else some ((natOfDigits intPart 0 : Nat) : Rat)
  | c :: frac =>
    if c == '.' && frac.all isDigitChar && !(intPart.isEmpty && frac.isEmpty) then
      some (((natOfDigits intPart 0 : Nat) : Rat) +
        ((natOfDigits frac 0 : Nat) : Rat) / (10 : Rat) ^ frac.length)
    else none

/-- Models Python `float(s)` on a string, simplified: an optional sign
followed by a decimal literal.  (Exponents, `inf`, `nan` and surrounding
whitespace, which Python also accepts, are not modelled; no claim exercises
them.) -/
def parsePyFloat (s : List Char) : Option Rat :=
  match s with
  | '+' :: rest => parseUnsigned rest
  | '-' :: rest => (parseUnsigned rest).map (fun q => -q)
  | _ => parseUnsigned s

/-- Models the Python builtin `float(x)` applied to a decoded JSON value:
numbers pass through, booleans coerce to 0/1, numeric strings parse, and
everything else raises (`Except.error`). -/
def pyFloat : Json → Except String Rat
  | Json.num q => Except.ok q
  | Json.bool b => Except.ok (if b then 1 else 0)
  | Json.str s =>
    match parsePyFloat s.data with
    | some q => Except.ok q
    | none => Except.error ("could not convert string to float")
  | Json.null => Except.error ("float() argument must be a string or a number")
  | Json.arr _ => Except.error ("float() argument must be a string or a number")
  | Json.obj _ => Except.error ("float() argument must be a string or a number")

/-- The in-memory job registry `ModelFusionEngine.active_jobs`
(`app.py` line 53): job identifier → status string, insertion-ordered as a
Python dict. -/
abbrev Jobs := List (String × String)

/-- Registry lookup (`job_id in fusion_engine.active_jobs` plus the value). -/
def jobsLookup (jobs : Jobs) (k : String) : Option String :=
  (jobs.find? (fun p => p.1 == k)).map (fun p => p.2)

/-- Python dict assignment `jobs[k] = v`: updates the binding in place when
the key exists, otherwise appends it (insertion order preserved). -/
def dictInsert (jobs : Jobs) (k v : String) : Jobs :=
  if (jobs.find? (fun p => p.1 == k)).isSome then
    jobs.map (fun p => if p.1 == k then (p.1, v) else p)
  else jobs ++ [(k, v)]

/-- An HTTP response: status code plus JSON body (`jsonify(...)`, with the
default 200 where the handler gives no code). -/
structure HttpResponse where
  status : Nat
  body : Json
deriving Repr

/-- `jsonify({"error": msg})`. -/
def errorJson (msg : String) : Json :=
  Json.obj [("error", Json.str msg)]

/-- The `required_fields` list of `generate_multimodal` (`app.py` line 228),
in source order. -/
def required_fields : List String :=
  ["scene_id", "text_prompt", "emotion", "intensity", "style", "camera_angle", "models"]

/-- The first required field missing from the payload — the field whose 400
the validation loop returns (`app.py` lines 229–231). -/
def firstMissingField (data : List (String × Json)) : Option String :=
  required_fields.find? (fun f => (jlookup data f).isNone)

/-- The 202 acknowledgment body of `generate_multimodal`
(`app.py` lines 250–255). -/
def ackBody (job_id : String) : Json :=
  Json.obj [
    ("job_id", Json.str job_id),
    ("status", Json.str ("processing")),
    ("estimated_time", Json.num 30),
    ("progress_url", Json.str ("/api/v1/jobs/" ++ job_id ++ "/status"))]

/-- `POST /api/v1/generate/multimodal` (`app.py` lines 221–261), on a JSON
object body.  `new_job_id` is the fresh `str(uuid.uuid4())` drawn by the
handler.  The handler also constructs a `GenerationRequest` that it never
uses; the only fallible step of that construction is
`float(data['intensity'])`, modelled by the `pyFloat` check — a failure is
caught by the handler's blanket `except` and becomes the 500 response.  The
pipeline is never invoked; on success the job is registered as
`"processing"` and the canned acknowledgment returned with code 202. -/
def generate_multimodal (jobs : Jobs) (new_job_id : String)
    (data : List (String × Json)) : HttpResponse × Jobs :=
  match firstMissingField data with
  | some f => ({ status := 400, body := errorJson ("Missing required field: " ++ f) }, jobs)
  | none =>
    match pyFloat (jget data ("intensity")) with
    | Except.error _ => ({ status := 500, body := errorJson ("Internal server error") }, jobs)
    | Except.ok _ =>
      ({ status := 202, body := ackBody new_job_id }, dictInsert jobs new_job_id ("processing"))

/-- The hardcoded "completed" payload of `get_job_status`
(`app.py` lines 270–287): progress 100, illustrative scene and output URLs,
independent of the stored status and of any pipeline invocation. -/
def jobStatusBody (job_id : String) : Json :=
  Json.obj [
    ("job_id", Json.str job_id),
    ("status", Json.str ("completed")),
    ("progress", Json.num 100),
    ("result", Json.obj [
      ("scene_id", Json.str ("scene-001")),
      ("outputs", Json.obj [
        ("video", Json.str ("https://example.com/generated-video.mp4")),
        ("audio", Json.str ("https://example.com/generated-audio.mp3")),
        ("metadata", Json.obj [
          ("emotion_accuracy", Json.num 0.94),
          ("visual_quality", Json.num 0.91),
          ("audio_sync", Json.num 0.96)])]),
      ("processing_time", Json.num 25.3)])]

/-- `GET /api/v1/jobs/<job_id>/status` (`app.py` lines 263–289). -/
def get_job_status (jobs : Jobs) (job_id : String) : HttpResponse :=
  if (jobsLookup jobs job_id).isNone then
    { status := 404, body := errorJson ("Job not found") }
  else
    { status := 200, body := jobStatusBody job_id }

/-- One request hitting the process, as far as the job registry is
concerned.  `generate` carries the fresh job id drawn by the handler and the
decoded JSON object body. -/
inductive ServerOp where
  | generate (new_job_id : String) (data : List (String × Json))
  | jobStatus (job_id : String)
  | health
  | enhancePromptRoute (data : List (String × Json))
  | fusionModels

/-- Effect of one request on `active_jobs`.  Of the five routes only
`generate_multimodal` writes the registry (`app.py` line 247);
`get_job_status` reads it and the remaining routes never touch it. -/
def stepJobs (jobs : Jobs) : ServerOp → Jobs
  | ServerOp.generate jid data => (generate_multimodal jobs jid data).2
  | ServerOp.jobStatus _ => jobs
  | ServerOp.health => jobs
  | ServerOp.enhancePromptRoute _ => jobs
  | ServerOp.fusionModels => jobs

/-- Registry contents after a sequence of requests, starting from the empty
dict created in `ModelFusionEngine.__init__` (`app.py` line 53). -/
def runServer (ops : List ServerOp) : Jobs :=
  ops.foldl stepJobs []

/-- Extending an infix on the right. -/
theorem infix_appendRight {α : Type} {l m : List α} (h : l <:+: m) (s : List α) :
    l <:+: m ++ s := by
  obtain ⟨u, v, rfl⟩ := h
  exact ⟨u, v ++ s, by simp⟩

/-- Extending an infix on the left. -/
theorem infix_appendLeft {α : Type} {l m : List α} (s : List α) (h : l <:+: m) :
    l <:+: s ++ m := by
  obtain ⟨u, v, rfl⟩ := h
  exact ⟨s ++ u, v, by simp⟩

/-- The two templates of `_enhance_text_prompt` can never coincide: one
starts with `Cinematic`, the other with `Professional`. -/
theorem wheatTemplate_ne_genericTemplate (r r' : GenerationRequest) :
    wheatTemplate r ≠ genericTemplate r' := by
  intro h
  have h2 := congrArg (fun s => s.data.head?) h
  simp only [wheatTemplate, genericTemplate, String.data_append, List.head?_append] at h2
  have hC : ("Cinematic ").data.head? = some 'C' := by decide
  have hP : ("Professional ").data.head? = some 'P' := by decide
  rw [hC, hP] at h2
  simp only [Option.or_some] at h2
  exact absurd (Option.some.inj h2) (by decide)

/-- A concrete request whose prompt does not mention a wheat field, used by
witnesses. -/
def req0 : GenerationRequest :=
  { scene_id := "scene-001"
    text_prompt := "a cat on a roof"
    emotion := "joy"
    intensity := 0.8
    style := "realistic"
    camera_angle := "wide"
    models := Json.obj [("text", Json.str ("claude-3-haiku"))]
    parameters := Json.obj [] }

/-- A concrete request whose prompt is exactly the special-cased substring. -/
def reqWheat : GenerationRequest :=
  { scene_id := "scene-wheat"
    text_prompt := "wheat field"
    emotion := "joy"
    intensity := 0.8
    style := "realistic"
    camera_angle := "wide"
    models := Json.obj []
    parameters := Json.obj [] }

/-- C1: for every request (and whatever uuid and elapsed time the
environment supplies), `process_multimodal_scene` runs text enhancement
first, feeds the enhanced prompt to visual generation and to audio
generation, fuses those two outputs, and returns a result with status
`completed`, the request's `scene_id`, and metadata holding the enhanced
prompt, the requested models, the emotion context and the ordered stage
list. -/
theorem C1_pipeline_shape (request_id : String) (elapsed : Rat) (req : GenerationRequest) :
    ∃ fused,
      fuse_modalities (generate_visuals req (enhance_text_prompt req))
        (generate_audio req (enhance_text_prompt req)) req = some fused ∧
      process_multimodal_scene request_id elapsed req = some {
        request_id := request_id
        scene_id := req.scene_id
        status := "completed"
        outputs := fused
        metadata := {
          enhanced_prompt := enhance_text_prompt req
          models_used := req.models
          emotion_context := { emotion := req.emotion, intensity := req.intensity }
          processing_stages := ["text_enhancement", "visual_generation", "audio_generation", "fusion"] }
        processing_time := elapsed } :=
  ⟨_, rfl, rfl⟩

/-- C2: the prompt-enhancement step returns the elaborate hand-authored
template exactly when the lower-cased `text_prompt` contains the substring
`wheat field`, and the generic cinematic template exactly otherwise. -/
theorem C2_wheat_branch (req : GenerationRequest) :
    (enhance_text_prompt req = wheatTemplate req ↔
      pyContains (pyLower req.text_prompt) wheatNeedle = true) ∧
    (enhance_text_prompt req = genericTemplate req ↔
      pyContains (pyLower req.text_prompt) wheatNeedle = false) := by
  cases h : pyContains (pyLower req.text_prompt) wheatNeedle with
  | true =>
    refine ⟨by simp [enhance_text_prompt, h], ?_⟩
    simp only [enhance_text_prompt, h, if_true]
    simp [wheatTemplate_ne_genericTemplate req req]
  | false =>
    refine ⟨?_, by simp [enhance_text_prompt, h]⟩
    simp only [enhance_text_prompt, h, Bool.false_eq_true, if_false]
    simp [(wheatTemplate_ne_genericTemplate req req).symm]

/-- The pipeline's `request_id` is exactly the uuid drawn for that call. -/
theorem process_request_id_eq (request_id : String) (elapsed : Rat)
    (req : GenerationRequest) :
    (process_multimodal_scene request_id elapsed req).map GenerationResult.request_id =
      some request_id := rfl

/-- C8: two invocations of the pipeline, even on the identical request,
return results with distinct `request_id`s as long as the uuid source never
repeats a value (the hypothesis `hfresh`). -/
theorem C8_fresh_request_id (rid1 rid2 : String) (e1 e2 : Rat)
    (req : GenerationRequest) (hfresh : rid1 ≠ rid2) :
    (process_multimodal_scene rid1 e1 req).map GenerationResult.request_id ≠
      (process_multimodal_scene rid2 e2 req).map GenerationResult.request_id := by
  rw [process_request_id_eq, process_request_id_eq]
  exact fun h => hfresh (Option.some.inj h)

/-- C8 witness: the theorem applied to two concrete distinct uuids. -/
theorem C8_fresh_request_id_witness :
    (process_multimodal_scene ("0a1b") 1 req0).map GenerationResult.request_id ≠
      (process_multimodal_scene ("7c2d") 2 req0).map GenerationResult.request_id :=
  C8_fresh_request_id ("0a1b") ("7c2d") 1 2 req0 (by decide)

/-- C5: for every call, the lip-sync phoneme, timestamp and mouth-shape
sequences have 50 entries each, the `i`-th timestamp equals `i * 0.1`
(hence starts at 0.0, ends at 4.9), and the timestamp sequence is strictly
increasing. -/
theorem C5_lipsync_shape (req : GenerationRequest) (enhanced_text : String) :
    ((generate_audio req enhanced_text).voice.lipsync_data.phonemes.length = 50) ∧
    ((generate_audio req enhanced_text).voice.lipsync_data.timestamps.length = 50) ∧
    ((generate_audio req enhanced_text).voice.lipsync_data.mouth_shapes.length = 50) ∧
    (∀ i : Nat, i < 50 →
      (generate_audio req enhanced_text).voice.lipsync_data.timestamps[i]? =
        some ((i : Rat) * 0.1)) ∧
    ((generate_audio req enhanced_text).voice.lipsync_data.timestamps[(0 : Nat)]? =
      some (0 : Rat)) ∧
    ((generate_audio req enhanced_text).voice.lipsync_data.timestamps[(49 : Nat)]? =
      some (4.9 : Rat)) ∧
    List.Pairwise (· < ·) (generate_audio req enhanced_text).voice.lipsync_data.timestamps := by
  have hts : ∀ i : Nat, i < 50 →
      (generate_audio req enhanced_text).voice.lipsync_data.timestamps[i]? =
        some ((i : Rat) * 0.1) := by
    intro i hi
    show ((List.range 50).map (fun (j : Nat) => (j : Rat) * 0.1))[i]? = some ((i : Rat) * 0.1)
    rw [List.getElem?_map, List.getElem?_range hi, Option.map_some']
  refine ⟨rfl, rfl, rfl, hts, ?_, ?_, ?_⟩
  · rw [hts 0 (by norm_num)]
    norm_num
  · rw [hts 49 (by norm_num)]
    norm_num
  · show List.Pairwise (· < ·) ((List.range 50).map (fun (j : Nat) => (j : Rat) * 0.1))
    rw [List.pairwise_map]
    refine (List.pairwise_lt_range 50).imp ?_
    intro a b hab
    have hcast : (a : Rat) < (b : Rat) := by exact_mod_cast hab
    have hpos : (0 : Rat) < 0.1 := by norm_num
    exact mul_lt_mul_of_pos_right hcast hpos

/-- C5 witness: the theorem at a concrete request, read off at index 49. -/
theorem C5_lipsync_shape_witness :
    ((generate_audio req0 ("enhanced")).voice.lipsync_data.phonemes.length = 50) ∧
    ((generate_audio req0 ("enhanced")).voice.lipsync_data.timestamps[(49 : Nat)]? =
      some (((49 : Nat) : Rat) * 0.1)) :=
  ⟨(C5_lipsync_shape req0 ("enhanced")).1,
   (C5_lipsync_shape req0 ("enhanced")).2.2.2.1 49 (by norm_num)⟩

/-- The fixed timeline `_fuse_modalities` always emits. -/
def fixedTimeline : SyncTimeline :=
  { total_duration := 10.0
    emotion_peaks := [2.5, 5.0, 8.5]
    camera_transitions := [0, 3.0, 6.0, 9.0]
    audio_sync_points := [0, 2.0, 4.0, 6.0, 8.0] }

/-- The fixed quality scores `_fuse_modalities` always emits. -/
def fixedFusionMetadata : FusionMetadata :=
  { visual_audio_sync := 0.96
    emotional_coherence := 0.94
    technical_quality := 0.91
    creative_score := 0.89 }

/-- The fixed render flags `_fuse_modalities` always emits. -/
def fixedRenderReady : RenderReady :=
  { flux_pipeline := true
    lipsync_enabled := true
    seedance_processing := true
    webgl_optimized := true }

/-- On a non-empty video list, `_fuse_modalities` returns the record built
from the first video, the music URL and the voice URL, together with the
fixed timeline, scores and flags. -/
theorem fuse_modalities_eq (v : VisualOutputs) (a : AudioOutputs) (r : GenerationRequest)
    (w : VideoOut) (ws : List VideoOut) (hv : v.videos = w :: ws) :
    fuse_modalities v a r = some {
      primary_content := { video := w.url, audio := a.music.url, voice := a.voice.url }
      synchronized_timeline := fixedTimeline
      fusion_metadata := fixedFusionMetadata
      render_ready := fixedRenderReady } := by
  unfold fuse_modalities
  rw [hv]
  rfl

/-- C9: the fusion step's synchronized timeline, fusion metadata and
render-ready flags are the same fixed constants on any two inputs (with the
video list non-empty, as the Python indexing requires); only
`primary_content` depends on the inputs, selecting the first video URL, the
music URL and the voice URL. -/
theorem C9_fusion_constants (v v' : VisualOutputs) (a a' : AudioOutputs)
    (r r' : GenerationRequest) (h : v.videos ≠ []) (h' : v'.videos ≠ []) :
    ∃ f f', fuse_modalities v a r = some f ∧ fuse_modalities v' a' r' = some f' ∧
      f.synchronized_timeline = f'.synchronized_timeline ∧
      f.fusion_metadata = f'.fusion_metadata ∧
      f.render_ready = f'.render_ready ∧
      f.synchronized_timeline = fixedTimeline ∧
      f.fusion_metadata = fixedFusionMetadata ∧
      f.render_ready = fixedRenderReady ∧
      (∀ v0 vs, v.videos = v0 :: vs →
        f.primary_content = { video := v0.url, audio := a.music.url, voice := a.voice.url }) := by
  cases hv : v.videos with
  | nil => exact absurd hv h
  | cons w ws =>
    cases hv' : v'.videos with
    | nil => exact absurd hv' h'
    | cons w' ws' =>
      exact ⟨_, _, fuse_modalities_eq v a r w ws hv, fuse_modalities_eq v' a' r' w' ws' hv',
        rfl, rfl, rfl, rfl, rfl, rfl,
        fun v0 vs hvv => by cases hvv; rfl⟩

/-- A concrete video descriptor used by the C9 witness. -/
def vid0 : VideoOut :=
  { url := "https://video.example/one"
    camera_work := "wide"
    motion_quality := 0.87
    emotional_sync := 0.94 }

/-- A concrete visual output with a single video, used by the C9 witness. -/
def vis0 : VisualOutputs :=
  { images := []
    videos := [vid0] }

/-- A concrete audio output used by the C9 witness. -/
def aud0 : AudioOutputs := generate_audio req0 ("enhanced")

/-- C9 witness: the theorem applied to concrete inputs. -/
theorem C9_fusion_constants_witness :
    ∃ f f', fuse_modalities vis0 aud0 req0 = some f ∧
      fuse_modalities vis0 aud0 reqWheat = some f' ∧
      f.synchronized_timeline = f'.synchronized_timeline ∧
      f.fusion_metadata = f'.fusion_metadata ∧
      f.render_ready = f'.render_ready ∧
      f.synchronized_timeline = fixedTimeline ∧
      f.fusion_metadata = fixedFusionMetadata ∧
      f.render_ready = fixedRenderReady ∧
      (∀ v0 vs, vis0.videos = v0 :: vs →
        f.primary_content = { video := v0.url, audio := aud0.music.url, voice := aud0.voice.url }) :=
  C9_fusion_constants vis0 vis0 aud0 aud0 req0 reqWheat
    (by simp [vis0]) (by simp [vis0])

set_option maxRecDepth 16384 in
/-- C10 counterexample: for the request whose `text_prompt` is exactly
`wheat field`, the elaborate branch is taken and the original `text_prompt`
does occur verbatim inside the output (the narrative itself contains
`golden wheat field`), refuting the claim that the text prompt never
appears in the elaborate output. -/
theorem C10_text_prompt_appears :
    pyContains (pyLower reqWheat.text_prompt) wheatNeedle = true ∧
    reqWheat.text_prompt.data <:+: (enhance_text_prompt reqWheat).data := by
  have hc : pyContains (pyLower reqWheat.text_prompt) wheatNeedle = true := by decide
  refine ⟨hc, ?_⟩
  have henh : enhance_text_prompt reqWheat = wheatTemplate reqWheat := by
    simp [enhance_text_prompt, hc]
  rw [henh]
  have hseg : reqWheat.text_prompt.data <:+:
      (" expression, running through a golden wheat field at golden hour. Warm sunlight creates dramatic backlighting, wheat stalks swaying in gentle breeze. Dynamic movement with ").data :=
    ⟨(" expression, running through a golden ").data,
     (" at golden hour. Warm sunlight creates dramatic backlighting, wheat stalks swaying in gentle breeze. Dynamic movement with ").data,
     by decide⟩
  simp only [wheatTemplate, String.data_append]
  exact infix_appendRight (infix_appendRight (infix_appendRight (infix_appendRight
    (infix_appendLeft _ hseg) _) _) _) _

/-- C10 (amended): on the wheat-field branch the enhanced prompt is a
function of `emotion`, `camera_angle`, `style` and `intensity` only — it
does not depend on `text_prompt` (though the literal words of a prompt such
as `wheat field` may still occur inside the fixed narrative) — while on the
generic branch the original `text_prompt` is embedded verbatim. -/
theorem C10_branch_dependence (req : GenerationRequest) :
    (pyContains (pyLower req.text_prompt) wheatNeedle = true →
      ∀ other : String, pyContains (pyLower other) wheatNeedle = true →
        enhance_text_prompt req = enhance_text_prompt { req with text_prompt := other }) ∧
    (pyContains (pyLower req.text_prompt) wheatNeedle = false →
      req.text_prompt.data <:+: (enhance_text_prompt req).data) := by
  constructor
  · intro h other hother
    simp [enhance_text_prompt, wheatTemplate, h, hother]
  · intro h
    simp only [enhance_text_prompt, h, Bool.false_eq_true, if_false]
    simp only [genericTemplate, String.data_append]
    exact infix_appendRight (infix_appendRight (infix_appendRight (infix_appendRight
      (infix_appendRight (infix_appendLeft _ (List.infix_refl _)) _) _) _) _) _

/-- C10 witness: the amended theorem applied to concrete prompts on both
branches. -/
theorem C10_branch_dependence_witness :
    enhance_text_prompt reqWheat =
      enhance_text_prompt { reqWheat with text_prompt := "golden WHEAT FIELD at dawn" } ∧
    req0.text_prompt.data <:+: (enhance_text_prompt req0).data :=
  ⟨(C10_branch_dependence reqWheat).1 (by decide) ("golden WHEAT FIELD at dawn") (by decide),
   (C10_branch_dependence req0).2 (by decide)⟩

/-- A payload with all seven required fields present but a non-numeric
`intensity` string. -/
def badIntensityData : List (String × Json) :=
  [("scene_id", Json.str ("s1")),
   ("text_prompt", Json.str ("a cat on a roof")),
   ("emotion", Json.str ("joy")),
   ("intensity", Json.str ("not-a-number")),
   ("style", Json.str ("realistic")),
   ("camera_angle", Json.str ("wide")),
   ("models", Json.obj [])]

/-- C3 counterexample: a body with all seven required fields present but a
non-numeric `intensity` is answered with 500 (the `float()` failure is
swallowed by the blanket `except`), not with the 400 the claim promises. -/
theorem C3_malformed_intensity_500 :
    (generate_multimodal [] ("job-c3") badIntensityData).1.status = 500 ∧
    (generate_multimodal [] ("job-c3") badIntensityData).1.status ≠ 400 ∧
    (generate_multimodal [] ("job-c3") badIntensityData).1.body =
      errorJson ("Internal server error") ∧
    (generate_multimodal [] ("job-c3") badIntensityData).2 = [] :=
  ⟨rfl, by decide, rfl, rfl⟩

/-- C3 (amended): a payload missing a required field is answered 400 naming
that field, but a present-yet-malformed field is not a 400: the `float()`
conversion raises inside the handler's blanket `except`, producing the
generic 500; in both cases no job is registered. -/
theorem C3_validation_vs_internal (jobs : Jobs) (new_job_id : String)
    (data : List (String × Json)) :
    (∀ f, firstMissingField data = some f →
      generate_multimodal jobs new_job_id data =
        ({ status := 400, body := errorJson ("Missing required field: " ++ f) }, jobs)) ∧
    (∀ msg, firstMissingField data = none →
      pyFloat (jget data ("intensity")) = Except.error msg →
      generate_multimodal jobs new_job_id data =
        ({ status := 500, body := errorJson ("Internal server error") }, jobs)) := by
  constructor
  · intro f hf
    simp [generate_multimodal, hf]
  · intro msg h1 h2
    simp [generate_multimodal, h1, h2]

/-- C3 witness: the amended theorem applied to an empty body (missing
field) and to the malformed-intensity body. -/
theorem C3_validation_vs_internal_witness :
    generate_multimodal [] ("job-a") [] =
      ({ status := 400, body := errorJson ("Missing required field: " ++ "scene_id") }, []) ∧
    generate_multimodal [] ("job-b") badIntensityData =
      ({ status := 500, body := errorJson ("Internal server error") }, []) :=
  ⟨(C3_validation_vs_internal [] ("job-a") []).1 ("scene_id") rfl,
   (C3_validation_vs_internal [] ("job-b") badIntensityData).2
     ("could not convert string to float") rfl rfl⟩

/-- C4: whenever a required field is absent from the JSON object body, the
handler answers 400 with `Missing required field: <name>` for a missing
required field, and the job registry is left unchanged — no job is
registered. -/
theorem C4_missing_field_400 (jobs : Jobs) (new_job_id : String)
    (data : List (String × Json)) (f : String)
    (hf : f ∈ required_fields) (hmiss : jlookup data f = none) :
    ∃ g, g ∈ required_fields ∧ jlookup data g = none ∧
      generate_multimodal jobs new_job_id data =
        ({ status := 400, body := errorJson ("Missing required field: " ++ g) }, jobs) := by
  have hsome : (firstMissingField data).isSome := by
    rw [firstMissingField, List.find?_isSome]
    exact ⟨f, hf, by simp [hmiss]⟩
  obtain ⟨g, hg⟩ := Option.isSome_iff_exists.mp hsome
  have hg' : required_fields.find? (fun x => (jlookup data x).isNone) = some g := hg
  refine ⟨g, List.mem_of_find?_eq_some hg', ?_, ?_⟩
  · have := List.find?_some hg'
    simpa using this
  · simp [generate_multimodal, firstMissingField, hg']

/-- C4 witness: the theorem applied to the empty body. -/
theorem C4_missing_field_400_witness :
    ∃ g, g ∈ required_fields ∧ jlookup [] g = none ∧
      generate_multimodal [] ("job-w4") [] =
        ({ status := 400, body := errorJson ("Missing required field: " ++ g) }, []) :=
  C4_missing_field_400 [] ("job-w4") [] ("scene_id") (by decide) rfl

/-- C6: the status route answers 404 `Job not found` exactly for job ids
absent from the registry; any registered id — whatever status string is
stored for it — gets the one hardcoded "completed" payload (progress 100,
illustrative scene and URLs), independent of any pipeline invocation. -/
theorem C6_job_status_contract (jobs : Jobs) (job_id : String) :
    (jobsLookup jobs job_id = none →
      get_job_status jobs job_id = { status := 404, body := errorJson ("Job not found") }) ∧
    (∀ v, jobsLookup jobs job_id = some v →
      get_job_status jobs job_id = { status := 200, body := jobStatusBody job_id }) ∧
    (jfield (jobStatusBody job_id) ("status") = some (Json.str ("completed"))) ∧
    (jfield (jobStatusBody job_id) ("progress") = some (Json.num 100)) := by
  refine ⟨?_, ?_, rfl, rfl⟩
  · intro h
    simp [get_job_status, h]
  · intro v h
    simp [get_job_status, h]

/-- C6 witness: the theorem applied to an unknown id on the empty registry
and to a registered id. -/
theorem C6_job_status_contract_witness :
    get_job_status [] ("missing-id") = { status := 404, body := errorJson ("Job not found") } ∧
    get_job_status [("job-9", "processing")] ("job-9") =
      { status := 200, body := jobStatusBody ("job-9") } :=
  ⟨(C6_job_status_contract [] ("missing-id")).1 rfl,
   (C6_job_status_contract [("job-9", "processing")] ("job-9")).2.1 ("processing") rfl⟩

/-- The generate handler either leaves the registry unchanged (validation
or conversion failure) or registers exactly its fresh job id as
`processing`. -/
theorem generate_multimodal_jobs_cases (jobs : Jobs) (new_job_id : String)
    (data : List (String × Json)) :
    (generate_multimodal jobs new_job_id data).2 = jobs ∨
    (generate_multimodal jobs new_job_id data).2 =
      dictInsert jobs new_job_id ("processing") := by
  unfold generate_multimodal
  cases firstMissingField data with
  | some f => exact Or.inl rfl
  | none =>
    cases pyFloat (jget data ("intensity")) with
    | error e => exact Or.inl rfl
    | ok q => exact Or.inr rfl

/-- Every entry of `dictInsert m k v` is an old entry or carries the new
value. -/
theorem mem_dictInsert (p : String × String) (m : Jobs) (k v : String)
    (hp : p ∈ dictInsert m k v) : p ∈ m ∨ p.2 = v := by
  unfold dictInsert at hp
  by_cases hf : (List.find? (fun q => q.1 == k) m).isSome
  · rw [if_pos hf] at hp
    obtain ⟨q, hq, hfq⟩ := List.mem_map.mp hp
    by_cases hqk : (q.1 == k) = true
    · right
      rw [← hfq]
      simp [hqk]
    · left
      rw [← hfq]
      simp only [hqk, Bool.false_eq_true, if_false]
      exact hq
  · rw [if_neg hf] at hp
    rcases List.mem_append.mp hp with h | h
    · exact Or.inl h
    · right
      rw [List.mem_singleton.mp h]

/-- Dict assignment never removes a key: a successful lookup stays
successful after any `dictInsert` (the update map preserves every `.1`
component, the append only adds). -/
theorem jobsLookup_dictInsert_isSome (m : Jobs) (k v k' : String)
    (h : (jobsLookup m k').isSome) : (jobsLookup (dictInsert m k v) k').isSome := by
  unfold jobsLookup at h ⊢
  rw [Option.isSome_map'] at h ⊢
  rw [List.find?_isSome] at h ⊢
  obtain ⟨x, hx, hpx⟩ := h
  unfold dictInsert
  by_cases hf : (List.find? (fun q => q.1 == k) m).isSome
  · rw [if_pos hf]
    refine ⟨if x.1 == k then (x.1, v) else x, List.mem_map.mpr ⟨x, hx, rfl⟩, ?_⟩
    by_cases hxk : (x.1 == k) = true
    · rw [if_pos hxk]
      simpa using hpx
    · rw [if_neg hxk]
      exact hpx
  · rw [if_neg hf]
    exact ⟨x, List.mem_append_left _ hx, hpx⟩

/-- One request preserves the all-values-are-processing invariant of the
registry. -/
theorem allProcessing_stepJobs (jobs : Jobs) (op : ServerOp)
    (h : ∀ p ∈ jobs, p.2 = "processing") :
    ∀ p ∈ stepJobs jobs op, p.2 = "processing" := by
  cases op with
  | generate jid data =>
    intro p hp
    rcases generate_multimodal_jobs_cases jobs jid data with hcase | hcase
    · rw [stepJobs, hcase] at hp
      exact h p hp
    · rw [stepJobs, hcase] at hp
      rcases mem_dictInsert p jobs jid ("processing") hp with hm | hv
      · exact h p hm
      · exact hv
  | jobStatus j => exact h
  | health => exact h
  | enhancePromptRoute d => exact h
  | fusionModels => exact h

/-- The invariant holds along any run that starts from an invariant-holding
registry. -/
theorem allProcessing_foldl (ops : List ServerOp) :
    ∀ jobs : Jobs, (∀ p ∈ jobs, p.2 = "processing") →
      ∀ p ∈ ops.foldl stepJobs jobs, p.2 = "processing" := by
  induction ops with
  | nil =>
    intro jobs h p hp
    exact h p hp
  | cons op rest ih =>
    intro jobs h p hp
    rw [List.foldl_cons] at hp
    exact ih (stepJobs jobs op) (allProcessing_stepJobs jobs op h) p hp

/-- C7: in every reachable registry state each entry's status string is
`processing`; no request ever removes a registered job id; the four
non-generate routes never write the registry; and on the success path the
generate handler registers exactly its fresh job id as `processing` and
answers 202 with the canned acknowledgment, without invoking the
pipeline. -/
theorem C7_registry_invariant :
    (∀ ops : List ServerOp, ∀ p ∈ runServer ops, p.2 = "processing") ∧
    (∀ (jobs : Jobs) (op : ServerOp) (k : String),
      (jobsLookup jobs k).isSome → (jobsLookup (stepJobs jobs op) k).isSome) ∧
    (∀ (jobs : Jobs) (j : String), stepJobs jobs (ServerOp.jobStatus j) = jobs) ∧
    (∀ jobs : Jobs, stepJobs jobs ServerOp.health = jobs) ∧
    (∀ (jobs : Jobs) (d : List (String × Json)),
      stepJobs jobs (ServerOp.enhancePromptRoute d) = jobs) ∧
    (∀ jobs : Jobs, stepJobs jobs ServerOp.fusionModels = jobs) ∧
    (∀ (jobs : Jobs) (new_job_id : String) (data : List (String × Json)),
      firstMissingField data = none →
      ∀ q : Rat, pyFloat (jget data ("intensity")) = Except.ok q →
      generate_multimodal jobs new_job_id data =
        ({ status := 202, body := ackBody new_job_id },
          dictInsert jobs new_job_id ("processing"))) := by
  refine ⟨?_, ?_, fun jobs j => rfl, fun jobs => rfl, fun jobs d => rfl, fun jobs => rfl, ?_⟩
  · intro ops p hp
    exact allProcessing_foldl ops [] (by intro p hp; cases hp) p hp
  · intro jobs op k hk
    cases op with
    | generate jid data =>
      rcases generate_multimodal_jobs_cases jobs jid data with hcase | hcase
      · rw [stepJobs, hcase]
        exact hk
      · rw [stepJobs, hcase]
        exact jobsLookup_dictInsert_isSome jobs jid ("processing") k hk
    | jobStatus j => exact hk
    | health => exact hk
    | enhancePromptRoute d => exact hk
    | fusionModels => exact hk
  · intro jobs new_job_id data h1 q h2
    simp [generate_multimodal, h1, h2]

/-- A complete, well-formed payload used by the C7 witness. -/
def validData : List (String × Json) :=
  [("scene_id", Json.str ("s1")),
   ("text_prompt", Json.str ("hello world")),
   ("emotion", Json.str ("joy")),
   ("intensity", Json.num 0.8),
   ("style", Json.str ("realistic")),
   ("camera_angle", Json.str ("wide")),
   ("models", Json.obj [("text", Json.str ("claude-3-haiku"))])]

/-- C7 witness: the theorem's components applied to concrete runs — a
generate request registers its job as `processing`, a non-generate request
preserves a lookup, and the success response is the canned 202. -/
theorem C7_registry_invariant_witness :
    (("job-w7", "processing") : String × String).2 = "processing" ∧
    (jobsLookup (stepJobs [("a", "processing")] ServerOp.health) ("a")).isSome ∧
    generate_multimodal [] ("job-w7") validData =
      ({ status := 202, body := ackBody ("job-w7") },
        dictInsert [] ("job-w7") ("processing")) :=
  ⟨C7_registry_invariant.1 [ServerOp.generate ("job-w7") validData]
      ("job-w7", "processing") (by decide),
   C7_registry_invariant.2.1 [("a", "processing")] ServerOp.health ("a") (by decide),
   C7_registry_invariant.2.2.2.2.2.2 [] ("job-w7") validData rfl 0.8 rfl⟩
